import Mathlib

/-!
Shallow embedding of the hand-tracking pipeline:

* `VisionService` (src/unnamed/part_001, the MediaPipe vision service):
  geometry classifier — bounding box, open/closed gesture, front/back
  facing, cursor point — and the frame gate of `detect`.
* `App.tsx` tracking loop: the temporal stabilizer (grace period for
  missing frames).
* `mouseServer.cjs` + `mouseService.cjs` (src/unnamed/part_004): the
  actuator — click edge detection, cursor-to-pixel mapping, button pulses.

Coordinates are modelled as rationals (`ℚ`); the JavaScript source works
with IEEE doubles, whose rounding plays no role in the properties proved
here.  The source compares square-root distances; since `Real.sqrt` is
strictly monotone on nonnegatives, the executable embedding compares
squared distances, and the equivalence with the Euclidean-distance
comparison is proved where the claim mentions it.
-/

/-- `HandGesture` from types.ts. -/
inductive HandGesture
  | OPEN
  | CLOSED
  | UNKNOWN
  deriving DecidableEq, Repr

/-- `HandFacing` from types.ts. -/
inductive HandFacing
  | FRONT
  | BACK
  | UNKNOWN
  deriving DecidableEq, Repr

/-- MediaPipe handedness category name: "Left" or "Right". -/
inductive Handedness
  | Left
  | Right
  deriving DecidableEq, Repr

/-- One MediaPipe hand landmark: normalized 3D point. -/
structure Landmark where
  x : ℚ
  y : ℚ
  z : ℚ
  deriving DecidableEq, Repr

/-- `BoundingBox` from types.ts (percent units after scaling). -/
structure BoundingBox where
  xmin : ℚ
  xmax : ℚ
  ymin : ℚ
  ymax : ℚ
  confidence : ℚ
  deriving DecidableEq, Repr

/-- `CursorPosition` from types.ts. -/
structure CursorPosition where
  x : ℚ
  y : ℚ
  deriving DecidableEq, Repr

/-- `DetectionResult` returned by `VisionService.detect`. -/
structure DetectionResult where
  box : Option BoundingBox
  gesture : HandGesture
  facing : HandFacing
  cursor : Option CursorPosition
  processed : Bool
  deriving DecidableEq, Repr

/-- Landmark array indexing `landmarks[i]`; a MediaPipe hand always has
21 entries, so out-of-range defaults never occur on real inputs. -/
def lget (lms : List Landmark) (i : ℕ) : Landmark :=
  lms.getD i ⟨0, 0, 0⟩

/-- Squared planar distance between two landmarks.  The source computes
`Math.sqrt(Math.pow(a.x-b.x,2) + Math.pow(a.y-b.y,2))` and only ever
compares two such distances; comparing the squares is equivalent because
`sqrt` is strictly monotone on nonnegatives (the equivalence is proved
in the last conjunct of `detectGesture_closed_iff` below). -/
def distSq (a b : Landmark) : ℚ :=
  (a.x - b.x) ^ 2 + (a.y - b.y) ^ 2

/-- The four non-thumb fingers as (tip, PIP) landmark-index pairs, from
`VisionService.detectGesture`: index (8,6), middle (12,10), ring (16,14),
pinky (20,18). -/
def fingerJoints : List (ℕ × ℕ) :=
  [(8, 6), (12, 10), (16, 14), (20, 18)]

/-- One finger's curl test from `detectGesture`: the tip is strictly
closer to the wrist (landmark 0) than the PIP joint is. -/
def fingerCurled (lms : List Landmark) (tip pip : ℕ) : Bool :=
  distSq (lget lms tip) (lget lms 0) < distSq (lget lms pip) (lget lms 0)

/-- `curledCount` from `detectGesture`. -/
def curledCount (lms : List Landmark) : ℕ :=
  (fingerJoints.filter (fun fj => fingerCurled lms fj.1 fj.2)).length

/-- `VisionService.detectGesture`: 3 or more curled fingers is a fist. -/
def detectGesture (lms : List Landmark) : HandGesture :=
  if 3 ≤ curledCount lms then .CLOSED else .OPEN

/-- `VisionService.detectFacing`: sign of the 2D cross product of
(wrist→indexMCP) and (wrist→pinkyMCP), with the test inverted for the
left hand. -/
def detectFacing (lms : List Landmark) (handedness : Handedness) : HandFacing :=
  let wrist := lget lms 0
  let index := lget lms 5
  let pinky := lget lms 17
  let v1x := index.x - wrist.x
  let v1y := index.y - wrist.y
  let v2x := pinky.x - wrist.x
  let v2y := pinky.y - wrist.y
  let crossZ := v1x * v2y - v1y * v2x
  match handedness with
  | .Right => if crossZ < 0 then .FRONT else .BACK
  | .Left => if 0 < crossZ then .FRONT else .BACK

/-- Accumulator for the bounding-box scan in `VisionService.detect`. -/
structure RawBox where
  xmin : ℚ
  ymin : ℚ
  xmax : ℚ
  ymax : ℚ
  deriving DecidableEq, Repr

/-- One iteration of the `for (const point of landmarks)` loop:
`if (point.x < xmin) xmin = point.x` is `min`, and dually for max. -/
def bboxStep (acc : RawBox) (p : Landmark) : RawBox :=
  { xmin := min acc.xmin p.x
    ymin := min acc.ymin p.y
    xmax := max acc.xmax p.x
    ymax := max acc.ymax p.y }

/-- The raw min/max scan with the source's initial values
`xmin = 1, ymin = 1, xmax = 0, ymax = 0`. -/
def rawBBox (lms : List Landmark) : RawBox :=
  lms.foldl bboxStep ⟨1, 1, 0, 0⟩

/-- `const padding = 0.05`. -/
def padding : ℚ := 5 / 100

/-- `const yOffset = -0.25` (cursor vertical offset). -/
def yOffset : ℚ := -(25 / 100)

/-- The pure classification part of `VisionService.detect` (lines
116–162): the branch taken on an admitted frame whose landmark results
are non-empty.  `conf` is `results.handednesses[0][0].score`. -/
def classify (lms : List Landmark) (handedness : Handedness) (conf : ℚ) :
    DetectionResult :=
  let raw := rawBBox lms
  let xmin := max 0 (raw.xmin - padding)
  let xmax := min 1 (raw.xmax + padding)
  let ymin := max 0 (raw.ymin - padding)
  let ymax := min 1 (raw.ymax + padding)
  let gesture := detectGesture lms
  let facing := detectFacing lms handedness
  let wrist := lget lms 0
  let cursor : CursorPosition := ⟨wrist.x * 100, (wrist.y + yOffset) * 100⟩
  { box := some
      { xmin := xmin * 100
        xmax := xmax * 100
        ymin := ymin * 100
        ymax := ymax * 100
        confidence := conf }
    gesture := gesture
    facing := facing
    cursor := some cursor
    processed := true }

/-- Mutable state of a `VisionService` instance relevant to `detect`:
`lastVideoTime` (initialized to −1). -/
structure VisionState where
  lastVideoTime : ℚ
  deriving DecidableEq, Repr

/-- What the landmarker returns on one admitted frame: either no hand,
or one hand's landmarks with handedness and score. -/
inductive HandInput
  | noHand
  | hand (lms : List Landmark) (handedness : Handedness) (conf : ℚ)
  deriving DecidableEq, Repr

/-- `VisionService.detect` (frame gate + classifier), for an initialized
service: skip the frame if `video.currentTime` equals `lastVideoTime`,
otherwise record the new time and classify. -/
def detect (st : VisionState) (currentTime : ℚ) (input : HandInput) :
    DetectionResult × VisionState :=
  if currentTime = st.lastVideoTime then
    ({ box := none, gesture := .UNKNOWN, facing := .UNKNOWN,
       cursor := none, processed := false }, st)
  else
    let st' : VisionState := { lastVideoTime := currentTime }
    match input with
    | .hand lms handedness conf => (classify lms handedness conf, st')
    | .noHand =>
        ({ box := none, gesture := .UNKNOWN, facing := .UNKNOWN,
           cursor := none, processed := true }, st')

/-- React state touched by the tracking loop in `App.tsx`, plus the
`missingFramesRef` counter. -/
structure AppState where
  boundingBox : Option BoundingBox
  gesture : HandGesture
  facing : HandFacing
  cursor : Option CursorPosition
  missingFrames : ℕ
  deriving DecidableEq, Repr

/-- One iteration of the `loop` body in `App.tsx` (lines 50–90), applied
to the detection result of the current tick.  On a box: publish it and
reset the missing-frame counter.  On a processed frame without a box:
increment the counter, and clear the published detection once it exceeds
5.  An unprocessed frame leaves everything unchanged. -/
def loopStep (s : AppState) (r : DetectionResult) : AppState :=
  if r.processed then
    match r.box with
    | some b =>
        { boundingBox := some b
          gesture := r.gesture
          facing := r.facing
          cursor := r.cursor
          missingFrames := 0 }
    | none =>
        let m := s.missingFrames + 1
        if 5 < m then
          { boundingBox := none, gesture := .UNKNOWN, facing := .UNKNOWN,
            cursor := none, missingFrames := m }
        else
          { s with missingFrames := m }
  else s

/-- The detection result `VisionService.detect` emits for an admitted
frame in which no hand was found. -/
def noHandFrame : DetectionResult :=
  { box := none, gesture := .UNKNOWN, facing := .UNKNOWN,
    cursor := none, processed := true }

/-- Mouse buttons of `robotjs.mouseToggle`. -/
inductive MouseButton
  | left
  | right
  deriving DecidableEq, Repr

/-- Observable actuator effects: an absolute pointer move request
(`MouseService.moveCursor(x, y)`) or a press-hold-release pulse on a
button with the given hold duration in milliseconds. -/
inductive MouseAction
  | moveTo (c : CursorPosition)
  | pulse (b : MouseButton) (holdMs : ℕ)
  deriving DecidableEq, Repr

namespace MouseService

/-- `MouseService.moveCursor` (mouseService.cjs): map a 0–100 normalized
cursor to absolute screen pixels with `Math.round`; Mathlib's `round`
(⌊x + 1/2⌋) agrees with JavaScript's `Math.round` on all inputs. -/
def moveCursor (normalizedX normalizedY : ℚ) (screenW screenH : ℕ) : ℤ × ℤ :=
  (round (normalizedX / 100 * screenW), round (normalizedY / 100 * screenH))

/-- `MouseService.click`: left button down, 50 ms hold, up. -/
def click : List MouseAction := [.pulse .left 50]

/-- `MouseService.rightClick`: right button down, 50 ms hold, up.
Defined in mouseService.cjs but never invoked by mouseServer.cjs. -/
def rightClick : List MouseAction := [.pulse .right 50]

end MouseService

/-- One `{cursor, gesture, facing}` record on the WebSocket wire. -/
structure MouseMessage where
  cursor : Option CursorPosition
  gesture : HandGesture
  facing : HandFacing
  deriving DecidableEq, Repr

/-- The click condition on line 54 of mouseServer.cjs:
`gesture === 'CLOSED' && prevGesture !== 'CLOSED'`. -/
def clickFires (prevGesture gesture : HandGesture) : Bool :=
  gesture = .CLOSED && prevGesture ≠ .CLOSED

/-- One `ws.on('message')` handler execution in mouseServer.cjs (lines
43–63): move the cursor when coordinates are present, fire
`MouseService.click()` on a CLOSED edge, and record the gesture in
`prevGesture`.  Returns the emitted actions and the new `prevGesture`. -/
def serverStep (prevGesture : HandGesture) (msg : MouseMessage) :
    List MouseAction × HandGesture :=
  let moveActs : List MouseAction :=
    match msg.cursor with
    | some c => [.moveTo c]
    | none => []
  let clickActs : List MouseAction :=
    if clickFires prevGesture msg.gesture then MouseService.click else []
  (moveActs ++ clickActs, msg.gesture)

/-- Indices (counting from `i`) at which the server fires a click while
processing a gesture sequence with the given starting `prevGesture`. -/
def serverClicksFrom (prevGesture : HandGesture) (i : ℕ) :
    List HandGesture → List ℕ
  | [] => []
  | g :: rest =>
      (if clickFires prevGesture g then [i] else []) ++
        serverClicksFrom g (i + 1) rest

/-- Click indices for a whole session: `prevGesture` starts at
`'UNKNOWN'` (line 38 of mouseServer.cjs). -/
def clickIndices (gs : List HandGesture) : List ℕ :=
  serverClicksFrom .UNKNOWN 0 gs

/-- A concrete 21-landmark hand whose wrist→indexMCP vector is (1/10, 0)
and whose wrist→pinkyMCP vector is (0, py), so that
`crossZ = (1/10)·py`; `py = ±1/10` gives `crossZ = ±1/100 = ±0.01`. -/
def facingProbe (py : ℚ) : List Landmark :=
  [⟨0, 0, 0⟩, ⟨0, 0, 0⟩, ⟨0, 0, 0⟩, ⟨0, 0, 0⟩, ⟨0, 0, 0⟩,
   ⟨1 / 10, 0, 0⟩, ⟨0, 0, 0⟩, ⟨0, 0, 0⟩, ⟨0, 0, 0⟩, ⟨0, 0, 0⟩,
   ⟨0, 0, 0⟩, ⟨0, 0, 0⟩, ⟨0, 0, 0⟩, ⟨0, 0, 0⟩, ⟨0, 0, 0⟩,
   ⟨0, 0, 0⟩, ⟨0, 0, 0⟩, ⟨0, py, 0⟩, ⟨0, 0, 0⟩, ⟨0, 0, 0⟩,
   ⟨0, 0, 0⟩]

/-- A concrete 21-landmark hand with every point at (1/2, 1/2). -/
def uniformHand : List Landmark :=
  [⟨1 / 2, 1 / 2, 0⟩, ⟨1 / 2, 1 / 2, 0⟩, ⟨1 / 2, 1 / 2, 0⟩,
   ⟨1 / 2, 1 / 2, 0⟩, ⟨1 / 2, 1 / 2, 0⟩, ⟨1 / 2, 1 / 2, 0⟩,
   ⟨1 / 2, 1 / 2, 0⟩, ⟨1 / 2, 1 / 2, 0⟩, ⟨1 / 2, 1 / 2, 0⟩,
   ⟨1 / 2, 1 / 2, 0⟩, ⟨1 / 2, 1 / 2, 0⟩, ⟨1 / 2, 1 / 2, 0⟩,
   ⟨1 / 2, 1 / 2, 0⟩, ⟨1 / 2, 1 / 2, 0⟩, ⟨1 / 2, 1 / 2, 0⟩,
   ⟨1 / 2, 1 / 2, 0⟩, ⟨1 / 2, 1 / 2, 0⟩, ⟨1 / 2, 1 / 2, 0⟩,
   ⟨1 / 2, 1 / 2, 0⟩, ⟨1 / 2, 1 / 2, 0⟩, ⟨1 / 2, 1 / 2, 0⟩]

/-! ## Helper lemmas -/

lemma serverClicksFrom_closed_replicate (i n : ℕ) :
    serverClicksFrom .CLOSED i (List.replicate n .CLOSED) = [] := by
  induction n generalizing i with
  | zero => rfl
  | succ n ih =>
      simp [List.replicate_succ, serverClicksFrom, clickFires, ih]

/-! ## Claims -/

/-- C2: the mouse server fires a click exactly on a transition into
`CLOSED` (`gesture === 'CLOSED' && prevGesture !== 'CLOSED'`), records
the current gesture as the new `prevGesture`, fires exactly at indices 1
and 5 on the sequence OPEN, CLOSED, CLOSED, CLOSED, OPEN, CLOSED, and
fires at most once on any sustained run of `CLOSED`. -/
theorem server_click_edge_detection :
    clickIndices [.OPEN, .CLOSED, .CLOSED, .CLOSED, .OPEN, .CLOSED] = [1, 5]
    ∧ (∀ (prev : HandGesture) (msg : MouseMessage),
        (MouseAction.pulse .left 50 ∈ (serverStep prev msg).1 ↔
          msg.gesture = .CLOSED ∧ prev ≠ .CLOSED)
        ∧ (serverStep prev msg).2 = msg.gesture)
    ∧ ∀ (prev : HandGesture) (i n : ℕ),
        (serverClicksFrom prev i (List.replicate n .CLOSED)).length ≤ 1 := by
  refine ⟨by decide, ?_, ?_⟩
  · intro prev msg
    obtain ⟨c, g, f⟩ := msg
    constructor
    · cases c <;>
        by_cases hg : g = HandGesture.CLOSED <;>
        by_cases hp : prev = HandGesture.CLOSED <;>
        simp [serverStep, clickFires, MouseService.click, hg, hp]
    · rfl
  · intro prev i n
    cases n with
    | zero => simp [serverClicksFrom]
    | succ n =>
        simp only [List.replicate_succ, serverClicksFrom,
          serverClicksFrom_closed_replicate]
        split <;> simp

/-- C1 (code evaluation at the failing input): on a click edge tagged
`BACK` the server still emits a left-button pulse, and no input ever
makes it pulse the right button — `MouseService.rightClick` is never
called by `mouseServer.cjs`, which contradicts the documented
front/back → left/right routing. -/
theorem server_click_ignores_facing :
    (serverStep .OPEN ⟨some ⟨10, 20⟩, .CLOSED, .BACK⟩).1 =
      [.moveTo ⟨10, 20⟩, .pulse .left 50]
    ∧ ∀ (prev : HandGesture) (msg : MouseMessage) (ms : ℕ),
        MouseAction.pulse .right ms ∉ (serverStep prev msg).1 := by
  refine ⟨by decide, ?_⟩
  intro prev msg ms
  obtain ⟨c, g, f⟩ := msg
  cases c <;> simp [serverStep, clickFires, MouseService.click]

/-- C7: the actuator maps a cursor point to pixels by
`round(x/100 · screenWidth)`, `round(y/100 · screenHeight)`; on a
1920×1080 screen `{x:50, y:50}` lands on `(960, 540)`, and out-of-range
values such as `{x:150, y:-20}` are not rejected but extrapolate. -/
theorem moveCursor_pixel_mapping :
    (∀ x y : ℚ, ∀ w h : ℕ, MouseService.moveCursor x y w h =
      (round (x / 100 * w), round (y / 100 * h)))
    ∧ MouseService.moveCursor 50 50 1920 1080 = (960, 540)
    ∧ MouseService.moveCursor 150 (-20) 1920 1080 = (2880, -216) := by
  refine ⟨fun x y w h => rfl, ?_, ?_⟩ <;>
    simp [MouseService.moveCursor, round_eq] <;> norm_num

/-- C4: the classifier's gesture is `CLOSED` iff at least 3 of the four
non-thumb fingers are curled (else `OPEN`), and a finger counts as
curled exactly when the Euclidean distance from its tip to the wrist is
strictly less than the Euclidean distance from its PIP joint to the
wrist. -/
theorem detectGesture_closed_iff (lms : List Landmark) :
    (detectGesture lms = .CLOSED ↔ 3 ≤ curledCount lms)
    ∧ (detectGesture lms = .OPEN ↔ ¬ 3 ≤ curledCount lms)
    ∧ (∀ (hd : Handedness) (conf : ℚ),
        (classify lms hd conf).gesture = detectGesture lms)
    ∧ ∀ t p : ℕ,
        fingerCurled lms t p = true ↔
          Real.sqrt ((((lget lms t).x - (lget lms 0).x : ℚ) : ℝ) ^ 2 +
              (((lget lms t).y - (lget lms 0).y : ℚ) : ℝ) ^ 2) <
          Real.sqrt ((((lget lms p).x - (lget lms 0).x : ℚ) : ℝ) ^ 2 +
              (((lget lms p).y - (lget lms 0).y : ℚ) : ℝ) ^ 2) := by
  refine ⟨?_, ?_, fun hd conf => rfl, ?_⟩
  · unfold detectGesture
    split <;> simp_all
  · unfold detectGesture
    split <;> simp_all
  · intro t p
    rw [Real.sqrt_lt_sqrt_iff (by positivity)]
    unfold fingerCurled distSq
    rw [decide_eq_true_eq]
    constructor <;> intro h <;> exact_mod_cast h

/-- C5: facing follows the sign of
`crossZ = v1.x·v2.y − v1.y·v2.x` with `v1 = indexMCP(5) − wrist(0)`,
`v2 = pinkyMCP(17) − wrist(0)`: for `Right`, `crossZ < 0` gives `FRONT`
and otherwise `BACK`; for `Left` the test is inverted, so
`crossZ = −0.01` gives `BACK` and `crossZ = +0.01` gives `FRONT`. -/
theorem detectFacing_sign_rule :
    (∀ lms : List Landmark,
      (detectFacing lms .Right =
        if ((lget lms 5).x - (lget lms 0).x) * ((lget lms 17).y - (lget lms 0).y)
            - ((lget lms 5).y - (lget lms 0).y) * ((lget lms 17).x - (lget lms 0).x) < 0
        then .FRONT else .BACK)
      ∧ (detectFacing lms .Left =
        if 0 < ((lget lms 5).x - (lget lms 0).x) * ((lget lms 17).y - (lget lms 0).y)
            - ((lget lms 5).y - (lget lms 0).y) * ((lget lms 17).x - (lget lms 0).x)
        then .FRONT else .BACK))
    ∧ detectFacing (facingProbe (-(1 / 10))) .Right = .FRONT
    ∧ detectFacing (facingProbe (1 / 10)) .Right = .BACK
    ∧ detectFacing (facingProbe (-(1 / 10))) .Left = .BACK
    ∧ detectFacing (facingProbe (1 / 10)) .Left = .FRONT := by
  refine ⟨fun lms => ⟨rfl, rfl⟩, ?_, ?_, ?_, ?_⟩ <;>
    norm_num [detectFacing, facingProbe, lget]

/-- C8: on a detected hand, the emitted cursor is the wrist landmark
shifted by −0.25 in y and scaled ×100:
`cursor = (100·wrist.x, 100·(wrist.y − 0.25))`. -/
theorem classify_cursor_offset (lms : List Landmark) (hd : Handedness) (conf : ℚ) :
    (classify lms hd conf).cursor =
      some ⟨100 * (lget lms 0).x, 100 * ((lget lms 0).y - 25 / 100)⟩ := by
  simp only [classify, yOffset, Option.some.injEq, CursorPosition.mk.injEq]
  constructor <;> ring

/-- C9: the classifier is deterministic — two `detect` calls on the same
admitted frame data, from any two internal states that both admit the
frame, produce identical `DetectionResult`s; no hidden state affects the
output. -/
theorem detect_deterministic (s1 s2 : VisionState) (t : ℚ) (input : HandInput)
    (h1 : ¬ t = s1.lastVideoTime) (h2 : ¬ t = s2.lastVideoTime) :
    (detect s1 t input).1 = (detect s2 t input).1 := by
  unfold detect
  rw [if_neg h1, if_neg h2]

/-- Witness for `detect_deterministic` at concrete states −1 and 7 and
frame time 1. -/
theorem detect_deterministic_witness :
    ¬ (1 : ℚ) = ((⟨-1⟩ : VisionState).lastVideoTime)
    ∧ ¬ (1 : ℚ) = ((⟨7⟩ : VisionState).lastVideoTime)
    ∧ (detect ⟨-1⟩ 1 (.hand [⟨1 / 2, 1 / 2, 0⟩] .Right (9 / 10))).1 =
        (detect ⟨7⟩ 1 (.hand [⟨1 / 2, 1 / 2, 0⟩] .Right (9 / 10))).1 :=
  ⟨by decide, by decide,
    detect_deterministic ⟨-1⟩ ⟨7⟩ 1 (.hand [⟨1 / 2, 1 / 2, 0⟩] .Right (9 / 10))
      (by decide) (by decide)⟩

lemma detectGesture_known (lms : List Landmark) :
    detectGesture lms = .OPEN ∨ detectGesture lms = .CLOSED := by
  unfold detectGesture
  split <;> simp

lemma detectFacing_known (lms : List Landmark) (hd : Handedness) :
    detectFacing lms hd = .FRONT ∨ detectFacing lms hd = .BACK := by
  unfold detectFacing
  cases hd <;> dsimp only <;> split <;> simp

/-- C10: whenever `detect` reports a box, the gesture is OPEN or CLOSED,
the facing is FRONT or BACK, and the cursor is non-null; `UNKNOWN`
values and a null cursor arise only on unadmitted frames or admitted
frames without a hand. -/
theorem detect_box_forces_classified (st : VisionState) (t : ℚ)
    (input : HandInput) (h : (detect st t input).1.box ≠ none) :
    ((detect st t input).1.gesture = .OPEN ∨ (detect st t input).1.gesture = .CLOSED)
    ∧ ((detect st t input).1.facing = .FRONT ∨ (detect st t input).1.facing = .BACK)
    ∧ (detect st t input).1.cursor ≠ none := by
  unfold detect at h ⊢
  by_cases ht : t = st.lastVideoTime
  · rw [if_pos ht] at h
    simp at h
  · rw [if_neg ht] at h ⊢
    cases input with
    | noHand => simp at h
    | hand lms hd conf =>
        simp only [classify]
        exact ⟨detectGesture_known lms, detectFacing_known lms hd, by simp⟩

/-- Witness for `detect_box_forces_classified`: a fresh frame with a
concrete detected hand. -/
theorem detect_box_forces_classified_witness :
    (detect ⟨-1⟩ 0 (.hand uniformHand .Right 1)).1.box ≠ none
    ∧ (((detect ⟨-1⟩ 0 (.hand uniformHand .Right 1)).1.gesture = .OPEN
        ∨ (detect ⟨-1⟩ 0 (.hand uniformHand .Right 1)).1.gesture = .CLOSED)
      ∧ ((detect ⟨-1⟩ 0 (.hand uniformHand .Right 1)).1.facing = .FRONT
        ∨ (detect ⟨-1⟩ 0 (.hand uniformHand .Right 1)).1.facing = .BACK)
      ∧ (detect ⟨-1⟩ 0 (.hand uniformHand .Right 1)).1.cursor ≠ none) := by
  have h : (detect ⟨-1⟩ 0 (.hand uniformHand .Right 1)).1.box ≠ none := by
    norm_num [detect, classify]
    exact Option.some_ne_none _
  exact ⟨h, detect_box_forces_classified ⟨-1⟩ 0 (.hand uniformHand .Right 1) h⟩

/-- C3: starting from a frame with a box, five consecutive admitted
no-box frames leave the published detection unchanged (the frame-0 box
is still reported at frame 5, with the missing-frame count at 5), and
the sixth no-box frame clears it to box = null, gesture = UNKNOWN,
facing = UNKNOWN, cursor = null. -/
theorem grace_period (sInit : AppState) (b : BoundingBox) (g : HandGesture)
    (f : HandFacing) (c : Option CursorPosition) :
    (∀ i : Fin 6,
      (fun s => loopStep s noHandFrame)^[i.val]
          (loopStep sInit ⟨some b, g, f, c, true⟩) =
        ⟨some b, g, f, c, i.val⟩)
    ∧ (fun s => loopStep s noHandFrame)^[6]
          (loopStep sInit ⟨some b, g, f, c, true⟩) =
        ⟨none, .UNKNOWN, .UNKNOWN, none, 6⟩ := by
  constructor
  · intro i
    fin_cases i <;> rfl
  · rfl

lemma bbox_foldl_bounds (l : List Landmark) (acc : RawBox) :
    (l.foldl bboxStep acc).xmin ≤ acc.xmin
    ∧ (l.foldl bboxStep acc).ymin ≤ acc.ymin
    ∧ acc.xmax ≤ (l.foldl bboxStep acc).xmax
    ∧ acc.ymax ≤ (l.foldl bboxStep acc).ymax := by
  induction l generalizing acc with
  | nil => simp
  | cons p rest ih =>
      simp only [List.foldl_cons]
      obtain ⟨h1, h2, h3, h4⟩ := ih (bboxStep acc p)
      exact ⟨h1.trans (min_le_left _ _), h2.trans (min_le_left _ _),
        (le_max_left _ _).trans h3, (le_max_left _ _).trans h4⟩

lemma bbox_foldl_min_le_max (l : List Landmark) (acc : RawBox) (hl : l ≠ []) :
    (l.foldl bboxStep acc).xmin ≤ (l.foldl bboxStep acc).xmax
    ∧ (l.foldl bboxStep acc).ymin ≤ (l.foldl bboxStep acc).ymax := by
  cases l with
  | nil => exact absurd rfl hl
  | cons p rest =>
      simp only [List.foldl_cons]
      obtain ⟨h1, h2, h3, h4⟩ := bbox_foldl_bounds rest (bboxStep acc p)
      have hx : (bboxStep acc p).xmin ≤ (bboxStep acc p).xmax :=
        (min_le_right _ _).trans (le_max_right _ _)
      have hy : (bboxStep acc p).ymin ≤ (bboxStep acc p).ymax :=
        (min_le_right _ _).trans (le_max_right _ _)
      exact ⟨h1.trans (hx.trans h3), h2.trans (hy.trans h4)⟩

/-- C6: for a 21-point landmark set, the padded, clamped, ×100-scaled
bounding box satisfies `xmin ≤ xmax`, `ymin ≤ ymax`, with all four
bounds in `[0, 100]`. -/
theorem bbox_invariants (lms : List Landmark) (hd : Handedness) (conf : ℚ)
    (hlen : lms.length = 21) (b : BoundingBox)
    (hb : (classify lms hd conf).box = some b) :
    b.xmin ≤ b.xmax ∧ b.ymin ≤ b.ymax
    ∧ 0 ≤ b.xmin ∧ b.xmin ≤ 100 ∧ 0 ≤ b.xmax ∧ b.xmax ≤ 100
    ∧ 0 ≤ b.ymin ∧ b.ymin ≤ 100 ∧ 0 ≤ b.ymax ∧ b.ymax ≤ 100 := by
  have hne : lms ≠ [] := by
    intro h0
    rw [h0] at hlen
    exact absurd hlen (by decide)
  obtain ⟨hxm, hym⟩ := bbox_foldl_min_le_max lms ⟨1, 1, 0, 0⟩ hne
  obtain ⟨hx1, hy1, hx0, hy0⟩ := bbox_foldl_bounds lms ⟨1, 1, 0, 0⟩
  simp only [classify, rawBBox, Option.some.injEq] at hb hxm hym hx1 hy1 hx0 hy0
  subst hb
  simp only [padding]
  set A := (List.foldl bboxStep ⟨1, 1, 0, 0⟩ lms).xmin with hA
  set B := (List.foldl bboxStep ⟨1, 1, 0, 0⟩ lms).xmax with hB
  set C := (List.foldl bboxStep ⟨1, 1, 0, 0⟩ lms).ymin with hC
  set D := (List.foldl bboxStep ⟨1, 1, 0, 0⟩ lms).ymax with hD
  have hxlo : (0 : ℚ) ≤ max 0 (A - 5 / 100) := le_max_left _ _
  have hxhi : min 1 (B + 5 / 100) ≤ 1 := min_le_left _ _
  have hylo : (0 : ℚ) ≤ max 0 (C - 5 / 100) := le_max_left _ _
  have hyhi : min 1 (D + 5 / 100) ≤ 1 := min_le_left _ _
  have hxlo' : (0 : ℚ) ≤ min 1 (B + 5 / 100) :=
    le_min (by norm_num) (by linarith)
  have hylo' : (0 : ℚ) ≤ min 1 (D + 5 / 100) :=
    le_min (by norm_num) (by linarith)
  have hxhi' : max 0 (A - 5 / 100) ≤ 1 :=
    max_le (by norm_num) (by linarith)
  have hyhi' : max 0 (C - 5 / 100) ≤ 1 :=
    max_le (by norm_num) (by linarith)
  have hxoo : max 0 (A - 5 / 100) ≤ min 1 (B + 5 / 100) :=
    max_le hxlo' (le_min (by linarith) (by linarith))
  have hyoo : max 0 (C - 5 / 100) ≤ min 1 (D + 5 / 100) :=
    max_le hylo' (le_min (by linarith) (by linarith))
  refine ⟨by linarith, by linarith, by linarith, by linarith, by linarith,
    by linarith, by linarith, by linarith, by linarith, by linarith⟩

/-- Witness for `bbox_invariants`: the uniform 21-point hand, whose box
evaluates to (45, 55) × (45, 55). -/
theorem bbox_invariants_witness :
    uniformHand.length = 21
    ∧ (classify uniformHand .Right 1).box =
        some ⟨45, 55, 45, 55, 1⟩
    ∧ ((45 : ℚ) ≤ 55 ∧ (45 : ℚ) ≤ 55
      ∧ (0 : ℚ) ≤ 45 ∧ (45 : ℚ) ≤ 100 ∧ (0 : ℚ) ≤ 55 ∧ (55 : ℚ) ≤ 100
      ∧ (0 : ℚ) ≤ 45 ∧ (45 : ℚ) ≤ 100 ∧ (0 : ℚ) ≤ 55 ∧ (55 : ℚ) ≤ 100) := by
  have hb : (classify uniformHand .Right 1).box = some ⟨45, 55, 45, 55, 1⟩ := by
    norm_num [classify, rawBBox, uniformHand, bboxStep, padding, min_def, max_def]
  exact ⟨rfl, hb,
    bbox_invariants uniformHand .Right 1 rfl ⟨45, 55, 45, 55, 1⟩ hb⟩
